import Mathlib

/-!
Shallow embedding of the entity-extraction service
(`src/extract.py` and `src/api.py`) and proofs about it.

External collaborators (the Python standard library `json` module, the
OpenAI client, PIL, the filesystem and the OS environment) are modelled
as oracle fields of a `PyEnv` record; everything the repository itself
implements is translated into executable Lean definitions.
-/

/-- The opening-brace character `{`. -/
def lbrace : Char := Char.ofNat 123

/-- The closing-brace character `}`. -/
def rbrace : Char := Char.ofNat 125

/-- Python values that `json.loads` can produce (JSON values). -/
inductive PyJson : Type where
  | null : PyJson
  | bool (b : Bool) : PyJson
  | num (n : Int) : PyJson
  | str (s : String) : PyJson
  | list (items : List PyJson) : PyJson
  | dict (entries : List (String × PyJson)) : PyJson

/-- Python runtime type name of a JSON value (as used in exception
messages such as AttributeError / TypeError). -/
def pyTypeName : PyJson → String
  | .null => "NoneType"
  | .bool _ => "bool"
  | .num _ => "int"
  | .str _ => "str"
  | .list _ => "list"
  | .dict _ => "dict"

/-- `d.get(k, default)` on a Python dict. -/
def dictGetD (entries : List (String × PyJson)) (k : String) (d : PyJson) : PyJson :=
  match entries.find? (fun p => p.1 == k) with
  | some p => p.2
  | none => d

/-- Whether `len(v)` succeeds on a Python value (dict, list and str
support `len`; NoneType, bool and int do not). -/
def pyHasLen : PyJson → Bool
  | .dict _ => true
  | .list _ => true
  | .str _ => true
  | _ => false

/-- Message of the `AttributeError` raised by `v.get(...)` when `v` is
not a dict. -/
def attrGetErr (j : PyJson) : String :=
  "\x27" ++ pyTypeName j ++ "\x27 object has no attribute \x27get\x27"

/-- Message of the `TypeError` raised by `len(v)` when `v` has no length. -/
def noLenErr (j : PyJson) : String :=
  "object of type \x27" ++ pyTypeName j ++ "\x27 has no len()"

/-- Index of the first occurrence of `c` in a character list. -/
def firstIdx (c : Char) : List Char → Option Nat
  | [] => none
  | a :: as => if a = c then some 0 else (firstIdx c as).map (· + 1)

/-- Index of the last occurrence of `c` in a character list. -/
def lastIdx (c : Char) (l : List Char) : Option Nat :=
  (firstIdx c l.reverse).map (fun k => l.length - 1 - k)

/-- The span matched by `re.search(r'\{.*\}', content, re.DOTALL)`
(`src/extract.py` line 186): the substring from the first opening brace
through the last closing brace, provided the last closing brace comes
after the first opening brace; `none` when the regex does not match. -/
def jsonSpan (s : String) : Option String :=
  match firstIdx lbrace s.toList, lastIdx rbrace s.toList with
  | some i, some j =>
      if i < j then some (String.mk ((s.toList.drop i).take (j - i + 1))) else none
  | _, _ => none

/-- Image metadata read by PIL plus `os.path.getsize`
(`src/extract.py` lines 62-68). -/
structure ImageMeta where
  width : Nat
  height : Nat
  format : String
  mode : String
  size_bytes : Nat

/-- The `image_info` dictionaries the service attaches to results:
local-file metadata, the `{"source": "url", "url": ...}` shape,
or the empty dict `{}`. -/
inductive ImageInfo : Type where
  | fileMeta (m : ImageMeta) : ImageInfo
  | urlSource (url : String) : ImageInfo
  | empty : ImageInfo

/-- Oracles for every external collaborator the repository calls.
`loads` and `decodeErrMsg` model the stdlib `json` module, `meta`
models PIL + `os.path.getsize` (`none` = the metadata block raised),
`readRaises`/`readErrMsgs` model `open(...).read()` failures on a path
that exists, `b64encode` models `base64.b64encode(...).decode`,
`completion` models the OpenAI chat-completions call keyed by the image
reference it is given (`Except.error` = the call raised), `envApiKey`
models `os.getenv("OPENAI_API_KEY")`, and `openFails`/`openErrMsgs`
model failures of `open(path, "wb")` for the upload temp file. -/
structure PyEnv where
  loads : String → Option PyJson
  decodeErrMsg : String → String
  meta : String → Option ImageMeta
  readRaises : String → Bool
  readErrMsgs : String → String
  b64encode : String → String
  completion : String → Except String String
  envApiKey : Option String
  openFails : String → Bool
  openErrMsgs : String → String

/-- The response-parsing block of `src/extract.py` (lines 180-190,
identical at lines 251-261): try `json.loads` on the whole reply; on
failure, search for the greedy brace span and parse that; raise
`ValueError("Could not parse JSON from response")` when no span exists.
A failing parse of the span re-raises the `JSONDecodeError`. -/
def parse_response (env : PyEnv) (content : String) : Except String PyJson :=
  match env.loads content with
  | some j => .ok j
  | none =>
    match jsonSpan content with
    | some sub =>
      match env.loads sub with
      | some j => .ok j
      | none => .error (env.decodeErrMsg sub)
    | none => .error "Could not parse JSON from response"

/-- The `EntityExtractionResult` dataclass (`src/extract.py` lines 16-22). -/
structure EntityExtractionResult where
  success : Bool
  entities : Option PyJson := none
  error : Option String := none
  image_info : Option ImageInfo := none

/-- A failure-shaped result (`success=False`). -/
def mkFailure (msg : String) (info : Option ImageInfo) : EntityExtractionResult :=
  { success := false, entities := none, error := some msg, image_info := info }

/-- `_get_image_info` (`src/extract.py` lines 50-71): copy PIL metadata
and the file size into a dict; on any exception return the empty dict. -/
def get_image_info (env : PyEnv) (image_path : String) : ImageInfo :=
  match env.meta image_path with
  | some m => ImageInfo.fileMeta m
  | none => ImageInfo.empty

/-- The inline image reference built at `src/extract.py` line 166:
a data URI whose media type is the literal `image/jpeg`. -/
def dataUri (b64 : String) : String :=
  "data:image/jpeg;base64," ++ b64

/-- The declared media type of a data URI: the characters after
`data:` up to the first `;`. -/
def dataUriMediaType (uri : String) : String :=
  String.mk ((uri.toList.drop 5).takeWhile (fun c => c != Char.ofNat 59))

/-- `src/extract.py` lines 192-198: log
`len(entities_data.get('entities', []))` — which raises unless the
parsed value is a dict whose `entities` entry (default `[]`) supports
`len` — then build the success result. A raise here falls through to
the generic handler and yields a failure result. -/
def finishResult (j : PyJson) (info : ImageInfo) : EntityExtractionResult :=
  match j with
  | .dict es =>
    if pyHasLen (dictGetD es "entities" (.list [])) then
      { success := true, entities := some j, error := none, image_info := some info }
    else
      mkFailure (noLenErr (dictGetD es "entities" (.list []))) (some info)
  | _ => mkFailure (attrGetErr j) (some info)

/-- The body of `extract_entities` after `image_info` has been computed
(`src/extract.py` lines 145-206): read and base64-encode the file,
make the single completion call, parse the reply, and map every raised
exception to a failure result carrying the captured `image_info`.
The second component lists the image references passed to the
completions API (the outbound network calls made). -/
def extract_withInfo (env : PyEnv) (image_path : String) (bytes : String)
    (info : ImageInfo) : EntityExtractionResult × List String :=
  if env.readRaises image_path then
    (mkFailure (env.readErrMsgs image_path) (some info), [])
  else
    let uri := dataUri (env.b64encode bytes)
    (match env.completion uri with
     | .error msg => mkFailure msg (some info)
     | .ok content =>
       match parse_response env content with
       | .error msg => mkFailure msg (some info)
       | .ok j => finishResult j info,
     [uri])

/-- `extract_entities` (`src/extract.py` lines 124-206). The filesystem
is `fs : String → Option String` (path to raw byte content; `none`
means `os.path.exists` is false). Returns the result together with the
list of outbound completion calls made. -/
def extract_entities (fs : String → Option String) (env : PyEnv)
    (image_path : String) : EntityExtractionResult × List String :=
  match fs image_path with
  | none =>
    ({ success := false, entities := none,
       error := some ("Image file not found: " ++ image_path),
       image_info := none }, [])
  | some bytes => extract_withInfo env image_path bytes (get_image_info env image_path)

/-- `extract_entities_from_url` (`src/extract.py` lines 208-277): one
completion call with the URL passed through unchanged; both the success
and the failure result carry `{"source": "url", "url": image_url}`. -/
def extract_entities_from_url (env : PyEnv) (image_url : String) :
    EntityExtractionResult × List String :=
  let info := ImageInfo.urlSource image_url
  (match env.completion image_url with
   | .error msg => mkFailure msg (some info)
   | .ok content =>
     match parse_response env content with
     | .error msg => mkFailure msg (some info)
     | .ok j => finishResult j info,
   [image_url])

/-- `_create_extraction_prompt` (`src/extract.py` lines 73-122): the
constant instruction string returned on every call, transcribed
byte-for-byte from the source (braces written `\x7b`/`\x7d`). -/
def create_extraction_prompt : String :=
  "\n"
  ++ "        Analyze this image and extract all visible entities in a structured JSON format. \n"
  ++ "        \n"
  ++ "        Please identify and categorize entities into the following types:\n"
  ++ "        - people: individuals visible in the image\n"
  ++ "        - objects: physical items, tools, furniture, etc.\n"
  ++ "        - animals: any animals or pets\n"
  ++ "        - vehicles: cars, bikes, planes, etc.\n"
  ++ "        - buildings: houses, stores, landmarks, etc.\n"
  ++ "        - nature: trees, flowers, landscapes, etc.\n"
  ++ "        - text: any readable text, signs, labels\n"
  ++ "        - food: meals, ingredients, beverages\n"
  ++ "        - clothing: garments, accessories\n"
  ++ "        - technology: computers, phones, electronics\n"
  ++ "        - other: anything that doesn\x27t fit the above categories\n"
  ++ "        \n"
  ++ "        For each entity, provide:\n"
  ++ "        - name: descriptive name of the entity\n"
  ++ "        - category: one of the categories above\n"
  ++ "        - confidence: your confidence level (high/medium/low)\n"
  ++ "        - location: general location in image (e.g., \"center\", \"top-left\", \"background\")\n"
  ++ "        - description: brief description with relevant details\n"
  ++ "        - count: number of instances (if applicable)\n"
  ++ "        \n"
  ++ "        Return ONLY a valid JSON object with this structure:\n"
  ++ "        \x7b\n"
  ++ "            \"entities\": [\n"
  ++ "                \x7b\n"
  ++ "                    \"name\": \"entity_name\",\n"
  ++ "                    \"category\": \"category_name\",\n"
  ++ "                    \"confidence\": \"high/medium/low\",\n"
  ++ "                    \"location\": \"location_description\",\n"
  ++ "                    \"description\": \"detailed_description\",\n"
  ++ "                    \"count\": 1\n"
  ++ "                \x7d\n"
  ++ "            ],\n"
  ++ "            \"summary\": \x7b\n"
  ++ "                \"total_entities\": 0,\n"
  ++ "                \"categories_found\": [],\n"
  ++ "                \"scene_description\": \"brief overall description\"\n"
  ++ "            \x7d\n"
  ++ "        \x7d\n"
  ++ "        "

/-- The 11 fixed entity categories the prompt enumerates
(`src/extract.py` lines 84-94). -/
def entityCategories : List String :=
  ["people", "objects", "animals", "vehicles", "buildings", "nature",
   "text", "food", "clothing", "technology", "other"]

/-- Number of positions of `l` where `pat` occurs. -/
def countOccs (pat : List Char) : List Char → Nat
  | [] => 0
  | c :: rest => (if pat.isPrefixOf (c :: rest) then 1 else 0) + countOccs pat rest

/-- How often the pattern `pat` occurs in `s`. -/
def occurrences (s pat : String) : Nat :=
  countOccs pat.toList s.toList

/-- Python truthiness of an optional string: `None` and `""` are falsy. -/
def truthy : Option String → Bool
  | none => false
  | some s => s != ""

/-- Python `a or b` on optional strings: `b` when `a` is falsy. -/
def pyOr (a b : Option String) : Option String :=
  if truthy a then a else b

/-- `str(HTTPException(status, detail))` (Starlette renders it as
`f"{status_code}: {detail}"`). -/
def strHTTPExc (status : Nat) (detail : String) : String :=
  toString status ++ ": " ++ detail

/-- What an endpoint handler produces: a response body, or a raised
`HTTPException` with a status code and detail string. -/
inductive ApiOutcome (R : Type) : Type where
  | ok (r : R) : ApiOutcome R
  | httpError (status : Nat) (detail : String) : ApiOutcome R

/-- The `EntityResponse` model (`src/api.py` lines 44-51), without the
wall-clock `timestamp`/`processing_time_ms` fields (external clock). -/
structure EntityResponse where
  success : Bool
  entities : Option PyJson := none
  error : Option String := none
  image_info : Option ImageInfo := none

/-- `EntityResponse` built from an `EntityExtractionResult`
(as at `src/api.py` lines 116-123 and 212-218). -/
def toEntityResponse (r : EntityExtractionResult) : EntityResponse :=
  { success := r.success, entities := r.entities,
    error := r.error, image_info := r.image_info }

/-- The `EntityRequest` model (`src/api.py` lines 39-42). -/
structure EntityRequest where
  image_url : String
  api_key : Option String := none

/-- The `/extract/url` handler (`src/api.py` lines 91-127). A missing
credential raises `HTTPException(400, ...)` inside the `try`, which the
blanket `except Exception` catches and re-raises as
`HTTPException(500, str(e))`. The second component is the list of
outbound completion calls made. -/
def extract_entities_from_url_endpoint (env : PyEnv) (req : EntityRequest) :
    ApiOutcome EntityResponse × List String :=
  if truthy (pyOr req.api_key env.envApiKey) then
    let (r, calls) := extract_entities_from_url env req.image_url
    (.ok (toEntityResponse r), calls)
  else
    (.httpError 500 (strHTTPExc 400 "OpenAI API key is required"), [])

/-- The `BatchEntityRequest` model (`src/api.py` lines 59-62). -/
structure BatchEntityRequest where
  image_urls : List String
  api_key : Option String := none

/-- The `BatchEntityResponse` model (`src/api.py` lines 64-70),
without the wall-clock `timestamp`. -/
structure BatchEntityResponse where
  results : List EntityResponse
  total_processed : Nat
  successful : Nat
  failed : Nat

/-- Outcome of one per-item call of
`batch_extractor.extract_entities_from_url(str(url))` inside the batch
loop: either the returned result, or an exception escaping the call
(`extract_entities_from_url` itself catches its exceptions, so this is
the "should not normally happen" case the per-item `except` guards). -/
inductive ItemOutcome : Type where
  | result (r : EntityExtractionResult) : ItemOutcome
  | exn (msg : String) : ItemOutcome

/-- One iteration of the batch loop (`src/api.py` lines 209-230):
a returned result is repackaged as an `EntityResponse`; an escaping
exception becomes a failure response carrying
`{"source": "url", "url": url}`. -/
def itemResponse (o : ItemOutcome) (url : String) : EntityResponse :=
  match o with
  | .result r => toEntityResponse r
  | .exn msg =>
    { success := false, entities := none, error := some msg,
      image_info := some (ImageInfo.urlSource url) }

/-- The accumulation of `results` / `successful` / `failed` over the
batch loop (`src/api.py` lines 205-230). The per-item call is the
oracle `f`, indexed by loop iteration and URL. -/
def batch_loop (f : Nat → String → ItemOutcome) :
    Nat → List String → List EntityResponse × Nat × Nat
  | _, [] => ([], 0, 0)
  | i, url :: rest =>
    let item := itemResponse (f i url) url
    let acc := batch_loop f (i + 1) rest
    (item :: acc.1,
     (if item.success then acc.2.1 + 1 else acc.2.1),
     (if item.success then acc.2.2 else acc.2.2 + 1))

/-- The `BatchEntityResponse` assembled at `src/api.py` lines 232-238:
`total_processed = len(request.image_urls)`. -/
def batch_process (urls : List String) (f : Nat → String → ItemOutcome) :
    BatchEntityResponse :=
  let acc := batch_loop f 0 urls
  { results := acc.1, total_processed := urls.length,
    successful := acc.2.1, failed := acc.2.2 }

/-- The `/extract/batch` handler (`src/api.py` lines 186-242). The
missing-credential `HTTPException(400, ...)` is caught by the blanket
`except Exception` and re-raised with status 500. The second component
counts per-item orchestrator invocations (zero when the handler
short-circuits before the loop). -/
def extract_entities_batch_endpoint (env : PyEnv) (req : BatchEntityRequest)
    (f : Nat → String → ItemOutcome) : ApiOutcome BatchEntityResponse × Nat :=
  if truthy (pyOr req.api_key env.envApiKey) then
    (.ok (batch_process req.image_urls f), req.image_urls.length)
  else
    (.httpError 500 (strHTTPExc 400 "OpenAI API key is required"), 0)

/-- An uploaded file as the `/extract/file` handler sees it:
`filename`, `content_type`, the outcome of
`await file.read()` / `buffer.write(content)` (`none` = that block
raised, with message `readErrMsg`). -/
structure UploadFile where
  filename : String
  content_type : Option String := none
  readResult : Option String := none
  readErrMsg : String := ""

/-- `file.content_type and file.content_type.startswith('image/')`
(`src/api.py` line 144). -/
def contentTypeIsImage : Option String → Bool
  | none => false
  | some s => "image/".toList.isPrefixOf s.toList

/-- The `/extract/file` handler (`src/api.py` lines 129-184), with the
temp-file filesystem threaded through explicitly. Steps, in source
order: MIME check, credential check (both raise `HTTPException(400)`
inside the `try`, re-raised as 500 by the blanket `except`), write the
upload to `/tmp/<filename>` (the `open` creates the file before
`file.read()`/`buffer.write` run), then the inner `try`/`finally` that
runs the extraction and removes the temp file. Returns
`((outcome, final filesystem), completion calls)`. -/
def extract_entities_from_file_endpoint (env : PyEnv)
    (fs : String → Option String) (file : UploadFile)
    (api_key : Option String) :
    (ApiOutcome EntityResponse × (String → Option String)) × List String :=
  if ¬ contentTypeIsImage file.content_type = true then
    ((.httpError 500 (strHTTPExc 400 "File must be an image"), fs), [])
  else if ¬ truthy (pyOr api_key env.envApiKey) = true then
    ((.httpError 500 (strHTTPExc 400 "OpenAI API key is required"), fs), [])
  else
    let t := "/tmp/" ++ file.filename
    if env.openFails t then
      ((.httpError 500 (env.openErrMsgs t), fs), [])
    else
      match file.readResult with
      | none =>
        -- `open(t, "wb")` already created (truncated) the file; the
        -- read/write failure skips the inner `try`/`finally`, so the
        -- temp file is left behind.
        ((.httpError 500 file.readErrMsg,
          fun p => if p = t then some "" else fs p), [])
      | some content =>
        let fs1 : String → Option String :=
          fun p => if p = t then some content else fs p
        let (r, calls) := extract_entities fs1 env t
        -- `finally`: `if os.path.exists(t): os.remove(t)`.
        let fs2 : String → Option String :=
          if (fs1 t).isSome then (fun p => if p = t then none else fs1 p) else fs1
        ((.ok (toEntityResponse r), fs2), calls)

/-! ## Concrete environments used by witnesses -/

/-- A concrete `json.loads` oracle that parses exactly the reply `{}`. -/
def testLoads : String → Option PyJson :=
  fun s => if s = "\x7b\x7d" then some (.dict []) else none

/-- A concrete environment: a configured credential, metadata always
raising, reads succeeding, and the model always replying `{}`. -/
def testEnv : PyEnv :=
  { loads := testLoads
    decodeErrMsg := fun _ => "Expecting value: line 1 column 1 (char 0)"
    meta := fun _ => none
    readRaises := fun _ => false
    readErrMsgs := fun _ => ""
    b64encode := fun _ => "QUJD"
    completion := fun _ => .ok "\x7b\x7d"
    envApiKey := some "sk-test"
    openFails := fun _ => false
    openErrMsgs := fun _ => "" }

/-- `testEnv` but with PNG metadata for the file `a.png`. -/
def envPng : PyEnv :=
  { testEnv with
    meta := fun p =>
      if p = "a.png" then
        some { width := 4, height := 3, format := "PNG", mode := "RGBA", size_bytes := 57 }
      else none }

/-- A filesystem holding a single PNG file. -/
def fsPng : String → Option String :=
  fun p => if p = "a.png" then some "PNGBYTES" else none

/-! ## C1: the response parser -/

/-- C1: the response parser returns the whole reply's JSON unchanged
when direct parsing succeeds; only when it fails does it parse the
greedy first-`{`-to-last-`}` span, returning that parse when valid;
when direct parsing fails and no brace span exists, parsing fails with
`Could not parse JSON from response` (and when the span exists but is
itself invalid, parsing fails with the decoder's error). -/
theorem spec_C1_response_parsing (env : PyEnv) (content : String) :
    (∀ j, env.loads content = some j → parse_response env content = .ok j) ∧
    (env.loads content = none → ∀ sub j, jsonSpan content = some sub →
      env.loads sub = some j → parse_response env content = .ok j) ∧
    (env.loads content = none → ∀ sub, jsonSpan content = some sub →
      env.loads sub = none →
      parse_response env content = .error (env.decodeErrMsg sub)) ∧
    (env.loads content = none → jsonSpan content = none →
      parse_response env content = .error "Could not parse JSON from response") := by
  refine ⟨?_, ?_, ?_, ?_⟩ <;> intros <;> simp [parse_response, *]

/-- C1 witness: a reply with prose around an embedded `{}` object is
recovered by the fallback span parse. -/
theorem spec_C1_witness :
    parse_response testEnv "Sure! Here is the result: \x7b\x7d Thanks!" =
      .ok (.dict []) :=
  (spec_C1_response_parsing testEnv "Sure! Here is the result: \x7b\x7d Thanks!").2.1
    rfl "\x7b\x7d" (.dict []) rfl rfl

/-! ## C5: nonexistent path -/

/-- C5: for every path absent from the filesystem, `extract_entities`
returns `success=False`, `entities=None`, the error
`Image file not found: <path>`, and makes no completion call. -/
theorem spec_C5_file_not_found (fs : String → Option String) (env : PyEnv)
    (path : String) (h : fs path = none) :
    extract_entities fs env path =
      ({ success := false, entities := none,
         error := some ("Image file not found: " ++ path),
         image_info := none }, []) := by
  simp [extract_entities, h]

/-- C5 witness: the path `missing.jpg` on an empty filesystem. -/
theorem spec_C5_witness :
    extract_entities (fun _ => none) testEnv "missing.jpg" =
      ({ success := false, entities := none,
         error := some "Image file not found: missing.jpg",
         image_info := none }, []) :=
  spec_C5_file_not_found (fun _ => none) testEnv "missing.jpg" rfl

/-! ## C8: the prompt builder -/

set_option maxRecDepth 20000 in
/-- C8: the prompt builder is a constant: two calls yield equal
strings, and the prompt enumerates each of the 11 fixed entity
categories exactly once (as a `- <category>:` bullet). -/
theorem spec_C8_prompt_builder :
    create_extraction_prompt = create_extraction_prompt ∧
    entityCategories.length = 11 ∧
    entityCategories.all
      (fun c => occurrences create_extraction_prompt ("- " ++ c ++ ":") == 1) = true :=
  ⟨rfl, rfl, by decide⟩

/-! ## C10: the data URI media type -/

/-- The media type declared by `dataUri` is the literal `image/jpeg`,
whatever the base64 payload. -/
theorem dataUri_mediaType (b64 : String) :
    dataUriMediaType (dataUri b64) = "image/jpeg" := by
  cases b64
  rfl

/-- C10: every local-file extraction that reaches the model invocation
sends exactly one inline image reference, a data URI whose declared
media type is `image/jpeg` — regardless of the actual image format. -/
theorem spec_C10_media_type_always_jpeg (fs : String → Option String)
    (env : PyEnv) (path bytes : String) (h1 : fs path = some bytes)
    (h2 : env.readRaises path = false) :
    (extract_entities fs env path).2 = [dataUri (env.b64encode bytes)] ∧
    dataUriMediaType (dataUri (env.b64encode bytes)) = "image/jpeg" := by
  constructor
  · simp [extract_entities, extract_withInfo, h1, h2]
  · exact dataUri_mediaType _

/-- C10 witness: a PNG file (metadata says `format = "PNG"`) is still
sent with a `data:image/jpeg;...` URI. -/
theorem spec_C10_witness :
    (extract_entities fsPng envPng "a.png").2 = ["data:image/jpeg;base64,QUJD"] ∧
    dataUriMediaType "data:image/jpeg;base64,QUJD" = "image/jpeg" :=
  spec_C10_media_type_always_jpeg fsPng envPng "a.png" "PNGBYTES" rfl rfl

/-! ## C6: the success/entities/error invariant -/

/-- The spec's result invariant: on success the entities payload is
populated and the error is absent; on failure the error is populated
and the entities payload is absent. -/
def resultInvariant (r : EntityExtractionResult) : Prop :=
  (r.success = true → r.entities.isSome = true ∧ r.error = none) ∧
  (r.success = false → r.error.isSome = true ∧ r.entities = none)

lemma resultInvariant_mkFailure (msg : String) (info : Option ImageInfo) :
    resultInvariant (mkFailure msg info) := by
  simp [resultInvariant, mkFailure]

lemma resultInvariant_finishResult (j : PyJson) (info : ImageInfo) :
    resultInvariant (finishResult j info) := by
  cases j <;> simp only [finishResult] <;>
    first
    | exact resultInvariant_mkFailure _ _
    | (split
       · simp [resultInvariant]
       · exact resultInvariant_mkFailure _ _)

lemma resultInvariant_extract_withInfo (env : PyEnv) (path bytes : String)
    (info : ImageInfo) :
    resultInvariant (extract_withInfo env path bytes info).1 := by
  unfold extract_withInfo
  split
  · exact resultInvariant_mkFailure _ _
  · dsimp only
    cases henv : env.completion (dataUri (env.b64encode bytes)) with
    | error msg => simp [henv, resultInvariant_mkFailure]
    | ok content =>
      cases hp : parse_response env content with
      | error msg => simp [henv, hp, resultInvariant_mkFailure]
      | ok j => simp [henv, hp, resultInvariant_finishResult]

lemma resultInvariant_extract_entities (fs : String → Option String)
    (env : PyEnv) (path : String) :
    resultInvariant (extract_entities fs env path).1 := by
  unfold extract_entities
  cases h : fs path with
  | none => simp [resultInvariant]
  | some bytes => exact resultInvariant_extract_withInfo env path bytes _

lemma resultInvariant_extract_from_url (env : PyEnv) (url : String) :
    resultInvariant (extract_entities_from_url env url).1 := by
  unfold extract_entities_from_url
  dsimp only
  cases henv : env.completion url with
  | error msg => simp [henv, resultInvariant_mkFailure]
  | ok content =>
    cases hp : parse_response env content with
    | error msg => simp [henv, hp, resultInvariant_mkFailure]
    | ok j => simp [henv, hp, resultInvariant_finishResult]

/-- C6: every result of `extract_entities` and of
`extract_entities_from_url` satisfies the invariant: `success=True`
implies `entities` is populated and `error` is `None`; `success=False`
implies `error` is populated and `entities` is `None` (the `image_info`
field is unconstrained). -/
theorem spec_C6_result_invariant (fs : String → Option String) (env : PyEnv)
    (path url : String) :
    resultInvariant (extract_entities fs env path).1 ∧
    resultInvariant (extract_entities_from_url env url).1 :=
  ⟨resultInvariant_extract_entities fs env path,
   resultInvariant_extract_from_url env url⟩

/-- C6 witness: the invariant at a concrete filesystem, environment,
path and URL. -/
theorem spec_C6_witness :
    resultInvariant (extract_entities fsPng envPng "a.png").1 ∧
    resultInvariant (extract_entities_from_url testEnv "https://example.com/a.jpg").1 :=
  spec_C6_result_invariant fsPng envPng "a.png" "https://example.com/a.jpg"

/-! ## C7: metadata is best-effort and non-negative -/

lemma finishResult_fields (j : PyJson) (i1 i2 : ImageInfo) :
    (finishResult j i1).success = (finishResult j i2).success ∧
    (finishResult j i1).entities = (finishResult j i2).entities ∧
    (finishResult j i1).error = (finishResult j i2).error := by
  cases j <;> simp only [finishResult, mkFailure] <;>
    first
    | simp
    | (split <;> simp)

/-- C7: on any metadata-extraction exception `_get_image_info` returns
the empty mapping; the extraction outcome (success flag, entities,
error, and the network calls made) is independent of the metadata
outcome — metadata failure never fails the extraction; and present
metadata fields `width`, `height`, `size_bytes` are non-negative. -/
theorem spec_C7_metadata_best_effort :
    (∀ env path, env.meta path = none → get_image_info env path = ImageInfo.empty) ∧
    (∀ env path bytes i1 i2,
      (extract_withInfo env path bytes i1).1.success =
        (extract_withInfo env path bytes i2).1.success ∧
      (extract_withInfo env path bytes i1).1.entities =
        (extract_withInfo env path bytes i2).1.entities ∧
      (extract_withInfo env path bytes i1).1.error =
        (extract_withInfo env path bytes i2).1.error ∧
      (extract_withInfo env path bytes i1).2 =
        (extract_withInfo env path bytes i2).2) ∧
    (∀ env path m, get_image_info env path = ImageInfo.fileMeta m →
      0 ≤ (m.width : Int) ∧ 0 ≤ (m.height : Int) ∧ 0 ≤ (m.size_bytes : Int)) := by
  refine ⟨?_, ?_, ?_⟩
  · intro env path h
    simp [get_image_info, h]
  · intro env path bytes i1 i2
    by_cases hr : env.readRaises path <;> simp only [extract_withInfo, hr] <;> simp only [if_true, if_false, Bool.false_eq_true, ite_true, ite_false]
    · simp [mkFailure]
    · cases henv : env.completion (dataUri (env.b64encode bytes)) with
      | error msg => simp [henv, mkFailure]
      | ok content =>
        cases hp : parse_response env content with
        | error msg => simp [henv, hp, mkFailure]
        | ok j =>
          simp only [henv, hp]
          exact ⟨(finishResult_fields j i1 i2).1, (finishResult_fields j i1 i2).2.1,
                 (finishResult_fields j i1 i2).2.2, trivial⟩
  · intro env path m _
    refine ⟨?_, ?_, ?_⟩ <;> omega

/-- C7 witness: a raising metadata oracle yields the empty mapping, and
the extraction success flag does not depend on the metadata value. -/
theorem spec_C7_witness :
    get_image_info testEnv "nometa.jpg" = ImageInfo.empty ∧
    (extract_withInfo testEnv "nometa.jpg" "B" ImageInfo.empty).1.success =
      (extract_withInfo testEnv "nometa.jpg" "B"
        (ImageInfo.urlSource "u")).1.success :=
  ⟨spec_C7_metadata_best_effort.1 testEnv "nometa.jpg" rfl,
   (spec_C7_metadata_best_effort.2.1 testEnv "nometa.jpg" "B" ImageInfo.empty
     (ImageInfo.urlSource "u")).1⟩

/-! ## C3 and C4: batch semantics -/

lemma batch_loop_length (f : Nat → String → ItemOutcome) (i : Nat)
    (urls : List String) :
    (batch_loop f i urls).1.length = urls.length := by
  induction urls generalizing i with
  | nil => simp [batch_loop]
  | cons u rest ih => simp [batch_loop, ih]

lemma batch_loop_counts (f : Nat → String → ItemOutcome) (i : Nat)
    (urls : List String) :
    (batch_loop f i urls).2.1 + (batch_loop f i urls).2.2 = urls.length := by
  induction urls generalizing i with
  | nil => simp [batch_loop]
  | cons u rest ih =>
    simp only [batch_loop, List.length_cons]
    have h := ih (i + 1)
    split <;> omega

lemma batch_loop_getElem? (f : Nat → String → ItemOutcome) (i k : Nat)
    (urls : List String) :
    (batch_loop f i urls).1.get? k =
      (urls.get? k).map (fun u => itemResponse (f (i + k) u) u) := by
  induction urls generalizing i k with
  | nil => simp [batch_loop]
  | cons u rest ih =>
    cases k with
    | zero => simp [batch_loop]
    | succ k =>
      simp only [batch_loop, List.get?]
      have h := ih (i + 1) k
      rw [h]
      have : i + 1 + k = i + (k + 1) := by omega
      rw [this]

/-- C3: whenever a credential is available, the batch endpoint returns
`total_processed = N`, `successful + failed = N` and a results list of
length exactly `N` whose `k`-th element is the response for the `k`-th
input URL, for an input list of `N` URLs. -/
theorem spec_C3_batch_shape (env : PyEnv) (req : BatchEntityRequest)
    (f : Nat → String → ItemOutcome)
    (h : truthy (pyOr req.api_key env.envApiKey) = true) :
    ∃ resp, (extract_entities_batch_endpoint env req f).1 = .ok resp ∧
      resp.total_processed = req.image_urls.length ∧
      resp.successful + resp.failed = req.image_urls.length ∧
      resp.results.length = req.image_urls.length ∧
      ∀ k url, req.image_urls.get? k = some url →
        resp.results.get? k = some (itemResponse (f k url) url) := by
  refine ⟨batch_process req.image_urls f, ?_, rfl,
    batch_loop_counts f 0 req.image_urls, batch_loop_length f 0 req.image_urls, ?_⟩
  · simp [extract_entities_batch_endpoint, h]
  · intro k url hk
    have h0 := batch_loop_getElem? f 0 k req.image_urls
    simp only [Nat.zero_add] at h0
    show (batch_loop f 0 req.image_urls).1.get? k = _
    rw [h0, hk]
    rfl

/-- The concrete two-URL batch request used by witnesses. -/
def reqTwo : BatchEntityRequest :=
  { image_urls := ["https://example.com/a.jpg", "https://example.com/b.jpg"],
    api_key := none }

/-- A per-item oracle where the first item succeeds and the second
raises. -/
def fTwo : Nat → String → ItemOutcome :=
  fun i url =>
    if i = 0 then
      .result { success := true, entities := some (.dict []), error := none,
                image_info := some (.urlSource url) }
    else .exn "boom"

/-- C3 witness: a two-URL batch with the environment credential. -/
theorem spec_C3_witness :
    ∃ resp, (extract_entities_batch_endpoint testEnv reqTwo fTwo).1 = .ok resp ∧
      resp.total_processed = reqTwo.image_urls.length ∧
      resp.successful + resp.failed = reqTwo.image_urls.length ∧
      resp.results.length = reqTwo.image_urls.length ∧
      ∀ k url, reqTwo.image_urls.get? k = some url →
        resp.results.get? k = some (itemResponse (fTwo k url) url) :=
  spec_C3_batch_shape testEnv reqTwo fTwo rfl

/-- C4: if the `k`-th per-item call raises, the `k`-th result is a
failure response carrying the exception message and
`{"source": "url", "url": <that URL>}`, and every other item is still
processed (the results list keeps length `N` with each position's
response present). -/
theorem spec_C4_batch_isolation (env : PyEnv) (req : BatchEntityRequest)
    (f : Nat → String → ItemOutcome) (k : Nat) (url msg : String)
    (hkey : truthy (pyOr req.api_key env.envApiKey) = true)
    (hurl : req.image_urls.get? k = some url)
    (hexn : f k url = .exn msg) :
    ∃ resp, (extract_entities_batch_endpoint env req f).1 = .ok resp ∧
      resp.results.get? k = some
        { success := false, entities := none, error := some msg,
          image_info := some (ImageInfo.urlSource url) } ∧
      resp.results.length = req.image_urls.length ∧
      ∀ i u, req.image_urls.get? i = some u →
        resp.results.get? i = some (itemResponse (f i u) u) := by
  refine ⟨batch_process req.image_urls f, ?_, ?_,
    batch_loop_length f 0 req.image_urls, ?_⟩
  · simp [extract_entities_batch_endpoint, hkey]
  · have h0 := batch_loop_getElem? f 0 k req.image_urls
    simp only [Nat.zero_add] at h0
    show (batch_loop f 0 req.image_urls).1.get? k = _
    rw [h0, hurl]
    simp [itemResponse, hexn]
  · intro i u hi
    have h0 := batch_loop_getElem? f 0 i req.image_urls
    simp only [Nat.zero_add] at h0
    show (batch_loop f 0 req.image_urls).1.get? i = _
    rw [h0, hi]
    rfl

/-- C4 witness: in the two-URL batch whose second item raises `boom`,
the second result is the failure shape and both items are present. -/
theorem spec_C4_witness :
    ∃ resp, (extract_entities_batch_endpoint testEnv reqTwo fTwo).2 = 2 ∧
      (extract_entities_batch_endpoint testEnv reqTwo fTwo).1 = .ok resp ∧
      resp.results.get? 1 = some
        { success := false, entities := none, error := some "boom",
          image_info := some (ImageInfo.urlSource "https://example.com/b.jpg") } ∧
      resp.results.length = reqTwo.image_urls.length ∧
      ∀ i u, reqTwo.image_urls.get? i = some u →
        resp.results.get? i = some (itemResponse (fTwo i u) u) := by
  obtain ⟨resp, h1, h2, h3, h4⟩ :=
    spec_C4_batch_isolation testEnv reqTwo fTwo 1 "https://example.com/b.jpg"
      "boom" rfl rfl rfl
  exact ⟨resp, rfl, h1, h2, h3, h4⟩

/-! ## C2: missing credential -/

/-- `testEnv` with `OPENAI_API_KEY` unset. -/
def envNoKey : PyEnv := { testEnv with envApiKey := none }

/-- C2 evaluation at the failing input: with no credential supplied by
the request or the environment, all three endpoints make zero external
network calls and stop before any orchestrator work, but the response
is a **500** server error carrying `400: OpenAI API key is required` —
not the claimed client-error response. The `HTTPException(400, ...)`
raised inside each handler's `try` is an `Exception`, so the handler's
blanket `except Exception` catches it and re-raises it with status 500
and `str(e)` as the detail. -/
theorem spec_C2_missing_credential_becomes_500 :
    extract_entities_from_url_endpoint envNoKey
        { image_url := "https://example.com/a.jpg", api_key := none } =
      (.httpError 500 "400: OpenAI API key is required", []) ∧
    extract_entities_batch_endpoint envNoKey
        { image_urls := ["https://example.com/a.jpg"], api_key := none }
        (fun _ _ => .exn "never invoked") =
      (.httpError 500 "400: OpenAI API key is required", 0) ∧
    extract_entities_from_file_endpoint envNoKey (fun _ => none)
        { filename := "a.png", content_type := some "image/png",
          readResult := some "BYTES", readErrMsg := "" } none =
      ((.httpError 500 "400: OpenAI API key is required", fun _ => none), []) := by
  refine ⟨?_, ?_, ?_⟩ <;> rfl

/-! ## C9: temp-file cleanup -/

/-- C9 counterexample: an upload whose `file.read()`/`buffer.write`
raises after `open(temp_file_path, "wb")` has already created the temp
file skips the inner `try`/`finally`, so after the request the temp
file still exists (and the request ended on a failure path). -/
theorem spec_C9_counterexample :
    (((extract_entities_from_file_endpoint testEnv (fun _ => none)
        { filename := "a.png", content_type := some "image/png",
          readResult := none, readErrMsg := "client disconnected" }
        none).1.2) "/tmp/a.png") = some "" ∧
    (extract_entities_from_file_endpoint testEnv (fun _ => none)
        { filename := "a.png", content_type := some "image/png",
          readResult := none, readErrMsg := "client disconnected" }
        none).1.1 = .httpError 500 "client disconnected" := by
  constructor <;> rfl

/-- C9 (amended): for every upload request that passes validation and
whose content is fully written to the temp file, the temp file no
longer exists once the request completes — on the extraction-success
path and on every extraction-failure path alike. (Only a failure
while reading/writing the upload itself, after `open` created the
file, escapes the cleanup.) -/
theorem spec_C9_cleanup_after_write (env : PyEnv)
    (fs : String → Option String) (file : UploadFile)
    (api_key : Option String) (content : String)
    (hmime : contentTypeIsImage file.content_type = true)
    (hkey : truthy (pyOr api_key env.envApiKey) = true)
    (hopen : env.openFails ("/tmp/" ++ file.filename) = false)
    (hread : file.readResult = some content) :
    (((extract_entities_from_file_endpoint env fs file api_key).1.2)
      ("/tmp/" ++ file.filename)) = none := by
  simp [extract_entities_from_file_endpoint, hmime, hkey, hopen, hread]

/-- C9 witness: a fully-written upload (on both an extraction-success
environment and one whose completion call fails) leaves no temp file. -/
theorem spec_C9_witness :
    (((extract_entities_from_file_endpoint testEnv (fun _ => none)
        { filename := "b.png", content_type := some "image/jpeg",
          readResult := some "DATA", readErrMsg := "" }
        none).1.2) "/tmp/b.png") = none :=
  spec_C9_cleanup_after_write testEnv (fun _ => none)
    { filename := "b.png", content_type := some "image/jpeg",
      readResult := some "DATA", readErrMsg := "" }
    none "DATA" (by decide) (by decide) (by decide) (by decide)
